import Mathlib

/-!
Shallow embedding of the domain checker (`checker.py`).

The pure decision logic of the checker is translated here: the content
signal analyzer (`_analyse_page_content`), the status resolver
(`determine_status`), the recommendation scorer (`score_domain` with
`_estimate_value`), and the WHOIS normalizer (`lookup_whois`).

Modelling conventions:
* Python `str` values are Lean `String`s; the Python substring test
  `needle in hay` is `pyIn`.
* Python truthiness of optional strings (`None` and `""` are falsy) is
  `pyTruthy`.
* Date-like strings are represented by how `datetime.fromisoformat`
  classifies them: `DateStr.valid day` for a parseable string denoting the
  calendar date `day` (as a day number on a linear time axis), and
  `DateStr.invalid raw` for an unparseable string.  `datetime.now()` is an
  explicit rational parameter `now` on the same axis (a fractional day
  count), so `timedelta.days` is the floor of a difference of day counts.
* Python floats are modelled as exact rationals; every constant involved
  (0.5, 1.5, 365.25, ...) is exactly representable, and Python's
  banker's rounding `round` is modelled by `pyround`.
* The WHOIS library call is external; its possible outcomes (a populated
  record object, `None`/empty, `PywhoisError`, any other exception) are an
  explicit `WhoisOutcome` input to `lookup_whois`.
-/

/-- Python substring test on char lists: `needle` occurs contiguously in the
haystack (the empty needle occurs in everything). -/
def pyInChars (needle : List Char) : List Char → Bool
  | [] => needle == []
  | c :: rest => needle.isPrefixOf (c :: rest) || pyInChars needle rest

/-- Python `needle in hay` on strings. -/
def pyIn (needle hay : String) : Bool :=
  pyInChars needle.data hay.data

/-- Truthiness of an optional Python string: `None` and `""` are falsy. -/
def pyTruthy : Option String → Bool
  | none => false
  | some s => s != ""

/-- Python `str.lower()` (character-wise lowercasing; all the texts this
program inspects are ASCII, where `Char.toLower` agrees with Python). -/
def pyLower (s : String) : String :=
  String.mk (s.data.map Char.toLower)

/-- Char-wise splitting on a separator character (the general case of
Python `str.split` with a one-character separator). -/
def splitOnChar (c : Char) : List Char → List (List Char)
  | [] => [[]]
  | x :: xs =>
    match splitOnChar c xs with
    | [] => [[]]
    | r :: rs => if x == c then [] :: r :: rs else (x :: r) :: rs

/-- Python `s.split(".")`. -/
def pySplitDot (s : String) : List String :=
  (splitOnChar '.' s.data).map String.mk

/-- A date-like Python string classified by `datetime.fromisoformat`:
either parseable (carrying the calendar date it denotes, as a day number)
or unparseable (carrying the raw text). -/
inductive DateStr
  | valid (day : Int)
  | invalid (raw : String)
deriving DecidableEq

/-- Python truthiness of the underlying string.  A parseable ISO date string
is never empty; an unparseable one is falsy exactly when it is `""`. -/
def DateStr.truthy : DateStr → Bool
  | valid _ => true
  | invalid raw => raw != ""

/-- The text of the underlying Python string.  The exact rendering of a
parseable date is abstracted (only its non-emptiness matters anywhere). -/
def DateStr.text : DateStr → String
  | valid day => "iso-date-" ++ toString day
  | invalid raw => raw

/-- `datetime.fromisoformat` on a classified date string: the parsed date,
or `none` for the `ValueError`/`TypeError` case. -/
def fromisoformat : DateStr → Option Int
  | .valid day => some day
  | .invalid _ => none

/-- Truthiness of an optional date-like string. -/
def pyTruthyDate : Option DateStr → Bool
  | none => false
  | some d => d.truthy

/-- The result dict built by `probe_http`. -/
structure HttpResult where
  http_status_code : Option Int := none
  page_title : Option String := none
  body_text : String := ""
  redirect_url : Option String := none
  is_parked : Bool := false
  is_for_sale : Bool := false
  sale_platform : Option String := none
  final_url : Option String := none
  error : Option String := none
deriving DecidableEq

/-- The normalized WHOIS dict built by `lookup_whois`. -/
structure WhoisInfo where
  registrar : Option String := none
  creation_date : Option DateStr := none
  expiration_date : Option DateStr := none
  name_servers : List String := []
  registrant : Option String := none
  registrant_email : Option String := none
deriving DecidableEq

/-- `PARKED_KEYWORDS` constant. -/
def PARKED_KEYWORDS : List String :=
  [ "buy this domain"
  , "this domain is for sale"
  , "domain is for sale"
  , "domain may be for sale"
  , "parked free"
  , "parked by"
  , "parked domain"
  , "domain parking"
  , "this webpage was generated"
  , "is available for purchase"
  , "make an offer"
  , "purchase this domain"
  , "acquire this domain"
  , "domain for sale"
  , "this domain name"
  , "get this domain" ]

/-- `SALE_PLATFORMS` constant. -/
def SALE_PLATFORMS : List String :=
  [ "godaddy", "sedo", "afternic", "dan.com", "hugedomains", "namecheap"
  , "flippa", "squadhelp", "brandpa", "atom.com", "undeveloped"
  , "domainagents", "buy.it", "bodis" ]

/-- `KNOWN_ACTIVE_DOMAINS` constant (a Python set; modelled as a list with
membership via `contains`). -/
def KNOWN_ACTIVE_DOMAINS : List String :=
  [ "ebay.com", "baidu.com", "washingtonpost.com", "snap.com"
  , "about.com", "realplayer.com" ]

/-- `HIGH_VALUE_KEYWORDS` constant. -/
def HIGH_VALUE_KEYWORDS : List String :=
  [ "tech", "ai", "cloud", "data", "cyber", "net", "web", "app", "code"
  , "dev", "digital", "smart", "auto", "pay", "fin", "bank", "cash", "money"
  , "crypto", "trade", "invest", "fund", "loan", "credit", "insurance"
  , "social", "chat", "meet", "link", "share", "connect", "hub", "live"
  , "stream", "video", "media", "news", "health", "med", "care", "fit"
  , "shop", "store", "buy", "deal", "market", "sale"
  , "game", "play", "bet", "win", "sport"
  , "travel", "trip", "fly", "hotel", "book"
  , "food", "eat", "cook", "recipe"
  , "learn", "edu", "study", "course", "tutor"
  , "job", "hire", "work", "career", "talent"
  , "home", "house", "real", "rent", "property" ]

/-- The title word list of the "real site" guard in `_analyse_page_content`. -/
def realSiteTitleWords : List String := ["domain", "parked", "for sale", "coming soon"]

/-- The title word list of the minimal-placeholder check in `_analyse_page_content`. -/
def placeholderTitleWords : List String := ["parked", "for sale", "domain", "coming soon"]

/-- The `sale_phrases` list local to `_analyse_page_content`. -/
def salePhrases : List String :=
  [ "buy this domain", "purchase this domain"
  , "make an offer on this domain", "acquire this domain"
  , "this domain is for sale", "domain is available for purchase"
  , "domain may be for sale" ]

/-- `len(body_text.replace(" ", ""))`: the length of the text with all
space characters removed. -/
def strippedLen (s : String) : Nat :=
  (s.data.filter (fun c => c != ' ')).length

/-- The "Parked keyword detection" block of `_analyse_page_content`. -/
def parkedHitsStep (body_text : String) (is_thin_page : Bool)
    (result : HttpResult) : HttpResult :=
  let parked_hits := (PARKED_KEYWORDS.filter (fun kw => pyIn kw body_text)).length
  if parked_hits ≥ 2 ∨ (parked_hits ≥ 1 ∧ is_thin_page = true) then
    { result with is_parked := true }
  else result

/-- The "Sale platform detection" block of `_analyse_page_content`
(only thin pages get the flag, exactly as in the source). -/
def platformStep (body_text : String) (is_thin_page : Bool)
    (result : HttpResult) : HttpResult :=
  let platform_found := SALE_PLATFORMS.find? (fun p => pyIn p body_text)
  if pyTruthy platform_found = true ∧ is_thin_page = true then
    { result with is_for_sale := true, sale_platform := platform_found }
  else result

/-- The "Explicit for-sale phrases" block of `_analyse_page_content`. -/
def salePhraseStep (body_text : String) (result : HttpResult) : HttpResult :=
  if salePhrases.any (fun ph => pyIn ph body_text) then
    { result with is_for_sale := true }
  else result

/-- The "If for-sale, also mark as parked" block of `_analyse_page_content`. -/
def forSaleSyncStep (result : HttpResult) : HttpResult :=
  if result.is_for_sale then { result with is_parked := true } else result

/-- The minimal-placeholder block of `_analyse_page_content`. -/
def placeholderStep (stripped_len : Nat) (result : HttpResult) : HttpResult :=
  if stripped_len < 150 ∧ pyTruthy result.page_title = true then
    let title_lower := pyLower (result.page_title.getD "")
    if placeholderTitleWords.any (fun kw => pyIn kw title_lower) then
      { result with is_parked := true }
    else result
  else result

/-- `_analyse_page_content`: detect parked and for-sale signals in page
content, mutating only the parked / for-sale / sale-platform fields.  The
sequential mutations of the source are the composition of the step
functions above, in source order.  The `raw_html` parameter is accepted
but unused, exactly as in the source. -/
def _analyse_page_content (result : HttpResult) (body_text : String)
    (raw_html : String) : HttpResult :=
  let _ := raw_html
  let stripped_len := strippedLen body_text
  let is_thin_page : Bool := decide (stripped_len < 2000)
  let title := pyLower (result.page_title.getD "")
  let is_real_site : Bool :=
    decide (stripped_len > 5000) && (title != "")
      && !(realSiteTitleWords.any (fun w => pyIn w title))
  if is_real_site then result
  else
    placeholderStep stripped_len
      (forSaleSyncStep
        (salePhraseStep body_text
          (platformStep body_text is_thin_page
            (parkedHitsStep body_text is_thin_page result))))

/-- `http_status_code in range(200, 400)` for an optional status code. -/
def statusInRange : Option Int → Bool
  | none => false
  | some c => decide (200 ≤ c) && decide (c < 400)

/-- `determine_status`: resolve the lifecycle status from the probe result,
the WHOIS record, the domain name and the current time (`datetime.now()`,
an explicit parameter here). -/
def determine_status (http_result : HttpResult) (whois_info : WhoisInfo)
    (domain : String) (now : ℚ) : String :=
  if KNOWN_ACTIVE_DOMAINS.contains domain then "active"
  else
    let has_http := http_result.http_status_code.isSome
    if pyTruthy http_result.redirect_url then "redirect"
    else if http_result.is_for_sale then "for_sale"
    else if http_result.is_parked then "parked"
    else if has_http && statusInRange http_result.http_status_code then "active"
    else
      let has_whois :=
        pyTruthy whois_info.registrar
          || pyTruthyDate whois_info.creation_date
          || pyTruthyDate whois_info.expiration_date
          || !whois_info.name_servers.isEmpty
      let tail :=
        if !has_whois && !has_http then "available"
        else if !has_http && has_whois then "expired"
        else "active"
      match whois_info.expiration_date with
      | none => tail
      | some expiration =>
        if expiration.truthy then
          match fromisoformat expiration with
          | some exp_date =>
            if (exp_date : ℚ) < now then "expired"
            else if !has_http then "parked"
            else tail
          | none => tail
        else tail

/-- Python `int()` truncation toward zero on a rational. -/
def pytrunc (q : ℚ) : Int :=
  if 0 ≤ q then q.floor else q.ceil

/-- Python `round()` on a rational: round half to even. -/
def pyround (q : ℚ) : Int :=
  let f := q.floor
  if q - (f : ℚ) < 1/2 then f
  else if q - (f : ℚ) > 1/2 then f + 1
  else if f % 2 = 0 then f else f + 1

/-- The recommendation dict built by `score_domain`. -/
structure Recommendation where
  score : Int
  reason : String
  estimated_value : String
deriving DecidableEq

/-- The `ranges` table of `_estimate_value`. -/
def VALUE_RANGES : List (Int × String) :=
  [ (1, "$0-$100")
  , (2, "$100-$500")
  , (3, "$500-$1,000")
  , (4, "$1,000-$2,500")
  , (5, "$2,500-$5,000")
  , (6, "$5,000-$10,000")
  , (7, "$10,000-$25,000")
  , (8, "$25,000-$50,000")
  , (9, "$50,000-$100,000")
  , (10, "$100,000+") ]

/-- `_estimate_value`: rough value estimate.  `age_years` and `name_len`
are accepted but unused, exactly as in the source. -/
def _estimate_value (score : Int) (age_years : ℚ) (name_len : Nat)
    (status : String) : String :=
  let _ := age_years
  let _ := name_len
  if status = "available" then "$10-$15 (registration cost)"
  else (VALUE_RANGES.lookup score).getD "$1,000-$5,000"

/-- The domain-age block of `score_domain`: returns
`(domain_age_years, score delta, appended reasons)`. -/
def ageStep (creation_date_str : Option DateStr) (now : ℚ) : ℚ × ℚ × List String :=
  match creation_date_str with
  | none => (0, 0, [])
  | some d =>
    if d.truthy then
      match fromisoformat d with
      | none => (0, 0, [])
      | some creation =>
        let domain_age_years : ℚ := (((now - (creation : ℚ)).floor : Int) : ℚ) / (1461/4)
        if 20 ≤ domain_age_years then
          (domain_age_years, 2,
            ["Very old domain (" ++ toString (pytrunc domain_age_years) ++ " years)"])
        else if 10 ≤ domain_age_years then
          (domain_age_years, 3/2,
            ["Established domain (" ++ toString (pytrunc domain_age_years) ++ " years)"])
        else if 5 ≤ domain_age_years then
          (domain_age_years, 1/2,
            ["Moderate age (" ++ toString (pytrunc domain_age_years) ++ " years)"])
        else (domain_age_years, 0, [])
    else (0, 0, [])

/-- The name-length block of `score_domain`. -/
def lenStep (name_len : Nat) : ℚ × List String :=
  if name_len ≤ 3 then (2, ["Ultra-short name (" ++ toString name_len ++ " chars)"])
  else if name_len ≤ 5 then (3/2, ["Short name (" ++ toString name_len ++ " chars)"])
  else if name_len ≤ 8 then (1/2, ["Concise name"])
  else if 15 ≤ name_len then (-1, ["Long name reduces memorability"])
  else (0, [])

/-- The TLD-bonus block of `score_domain`. -/
def tldStep (domain : String) : ℚ × List String :=
  if domain.endsWith ".com" then (1, [".com TLD premium"])
  else if domain.endsWith ".io" || domain.endsWith ".ai" || domain.endsWith ".co" then
    (1/2, ["Desirable TLD (" ++ (pySplitDot domain).getLastD "" ++ ")"])
  else (0, [])

/-- The historical-popularity block of `score_domain`. -/
def popStep (year_count : Nat) : ℚ × List String :=
  if 5 ≤ year_count then
    (3/2, ["Appeared in " ++ toString year_count ++ " years of top lists"])
  else if 3 ≤ year_count then
    (1, ["Appeared in " ++ toString year_count ++ " years of top lists"])
  else if 2 ≤ year_count then
    (1/2, ["Appeared in " ++ toString year_count ++ " years of top lists"])
  else (0, [])

/-- The high-value-keyword block of `score_domain`. -/
def kwStep (name_lower : String) : ℚ × List String :=
  let matched := HIGH_VALUE_KEYWORDS.filter (fun kw => pyIn kw name_lower)
  if matched.isEmpty then (0, [])
  else
    (min ((matched.length : ℚ) * (1/2)) (3/2),
      ["High-value keywords: " ++ String.intercalate ", " (matched.take 3)])

/-- The brandability block of `score_domain`. -/
def brandStep (name_lower : String) : ℚ × List String :=
  let vowel_count := (name_lower.data.filter (fun c => "aeiou".data.contains c)).length
  let vowel_ratio : ℚ := (vowel_count : ℚ) / ((max name_lower.length 1 : Nat) : ℚ)
  let hyphen_count := (name_lower.data.filter (fun c => c == '-')).length
  let digit_count := (name_lower.data.filter (fun c => c.isDigit)).length
  if 1/5 ≤ vowel_ratio ∧ vowel_ratio ≤ 3/5 ∧ hyphen_count = 0 ∧ digit_count = 0 then
    (1/2, ["Good brandability (pronounceable, clean)"])
  else if 2 ≤ hyphen_count ∨ 3 ≤ digit_count then
    (-(1/2), ["Low brandability (hyphens/digits)"])
  else (0, [])

/-- The status-adjustment block of `score_domain`. -/
def statusStep (status : String) : ℚ × List String :=
  if status = "available" then (1/2, ["Potentially available for registration"])
  else if status = "for_sale" then (0, ["Listed for sale -- acquisition possible"])
  else if status = "active" then (-(1/2), ["Currently active -- acquisition unlikely"])
  else (0, [])

/-- The accumulated floating-point score of `score_domain` before rounding
and clamping (each block's delta depends only on the inputs, so the
sequential accumulation equals this sum). -/
def score_raw (domain : String) (years_popular : List Int) (status : String)
    (whois_info : WhoisInfo) (now : ℚ) : ℚ :=
  let name_part := (pySplitDot domain).headD ""
  5 + (ageStep whois_info.creation_date now).2.1
    + (lenStep name_part.length).1
    + (tldStep domain).1
    + (popStep years_popular.length).1
    + (kwStep (pyLower name_part)).1
    + (brandStep (pyLower name_part)).1
    + (statusStep status).1

/-- The accumulated reasons of `score_domain`, in firing order. -/
def score_reasonList (domain : String) (years_popular : List Int) (status : String)
    (whois_info : WhoisInfo) (now : ℚ) : List String :=
  let name_part := (pySplitDot domain).headD ""
  (ageStep whois_info.creation_date now).2.2
    ++ (lenStep name_part.length).2
    ++ (tldStep domain).2
    ++ (popStep years_popular.length).2
    ++ (kwStep (pyLower name_part)).2
    ++ (brandStep (pyLower name_part)).2
    ++ (statusStep status).2

/-- `score_domain`: score a domain 1-10 and provide a recommendation.
`datetime.now()` is the explicit parameter `now`. -/
def score_domain (domain : String) (years_popular : List Int) (status : String)
    (whois_info : WhoisInfo) (now : ℚ) : Recommendation :=
  let name_part := (pySplitDot domain).headD ""
  let final_score := max 1 (min 10 (pyround (score_raw domain years_popular status whois_info now)))
  let reasons := score_reasonList domain years_popular status whois_info now
  let reasons := if reasons.isEmpty then ["Standard domain"] else reasons
  { score := final_score
  , reason := String.intercalate "; " reasons
  , estimated_value :=
      _estimate_value final_score (ageStep whois_info.creation_date now).1
        name_part.length status }

/-- A duck-typed Python value in a raw WHOIS response field.  Strings are
classified by ISO-date parseability (`DateStr`); `pdatetime` carries a
datetime object's calendar date as a day number. -/
inductive PyVal
  | pnone
  | pstr (s : DateStr)
  | pdatetime (day : Int)
  | plist (items : List PyVal)

/-- Python truthiness of a raw value. -/
def PyVal.truthy : PyVal → Bool
  | pnone => false
  | pstr s => s.text != ""
  | pdatetime _ => true
  | plist items => !items.isEmpty

/-- Python `str()` on a raw value (renderings of non-string values are
abstracted; nothing below depends on them). -/
def pyStr : PyVal → String
  | .pnone => "None"
  | .pstr s => s.text
  | .pdatetime day => (DateStr.valid day).text
  | .plist _ => "[...]"

/-- Python `a or b`. -/
def pyOr (a b : PyVal) : PyVal :=
  if a.truthy then a else b

/-- `_safe_str`: convert a value to a string safely, handling lists and None. -/
def _safe_str : PyVal → Option String
  | .pnone => none
  | .plist items =>
    match items with
    | [] => none
    | v :: _ => some (pyStr v)
  | v => some (pyStr v)

/-- The tail of `_safe_date` after the list unwrap. -/
def _safe_date_tail : PyVal → Option DateStr
  | .pnone => none
  | .pdatetime day => some (.valid day)
  | .pstr s => some s
  | .plist items => some (.invalid (pyStr (.plist items)))

/-- `_safe_date`: convert a date-like value to an ISO date string.
A datetime yields `date().isoformat()`, which re-parses to the same date;
`str()` of any other value keeps its parseability classification. -/
def _safe_date : PyVal → Option DateStr
  | .plist items =>
    match items with
    | [] => none
    | v :: _ => _safe_date_tail v
  | v => _safe_date_tail v

/-- `_safe_list`: ensure a value is a list of strings. -/
def _safe_list : PyVal → List String
  | .pnone => []
  | .pstr s => [s.text]
  | .plist items => items.map (fun v => pyLower (pyStr v))
  | .pdatetime day => [pyStr (.pdatetime day)]

/-- A raw WHOIS response object: each attribute read by `lookup_whois`
(with `getattr(..., None)` defaulting to `pnone`). -/
structure RawWhois where
  registrar : PyVal := .pnone
  creation_date : PyVal := .pnone
  expiration_date : PyVal := .pnone
  name_servers : PyVal := .pnone
  org : PyVal := .pnone
  name : PyVal := .pnone
  registrant_name : PyVal := .pnone
  emails : PyVal := .pnone
  registrant_email : PyVal := .pnone

/-- The possible outcomes of the external `whois.whois(domain)` call. -/
inductive WhoisOutcome
  | ok (w : RawWhois)
  | okEmpty
  | notFound (msg : String)
  | failure (msg : String)

/-- `lookup_whois`: query WHOIS and return structured data.  The `try`
block's exception handlers (`PywhoisError` for a missing record, bare
`Exception` otherwise) both fall through to returning the initial
all-absent `info` dict, so the function is total over every outcome. -/
def lookup_whois (outcome : WhoisOutcome) : WhoisInfo :=
  let info : WhoisInfo := {}
  match outcome with
  | .notFound _ => info
  | .failure _ => info
  | .okEmpty => info
  | .ok w =>
    let registrant := pyOr w.org (pyOr w.name w.registrant_name)
    let email := pyOr w.emails w.registrant_email
    { info with
      registrar := _safe_str w.registrar
      creation_date := _safe_date w.creation_date
      expiration_date := _safe_date w.expiration_date
      name_servers := _safe_list w.name_servers
      registrant := _safe_str registrant
      registrant_email :=
        match email with
        | .plist items => items.head?.map pyStr
        | v => _safe_str v }

/-! ### Helper lemmas -/

/-- The score field of `score_domain`, unfolded. -/
theorem score_domain_score_eq (domain : String) (years_popular : List Int)
    (status : String) (whois_info : WhoisInfo) (now : ℚ) :
    (score_domain domain years_popular status whois_info now).score
      = max 1 (min 10 (pyround (score_raw domain years_popular status whois_info now))) := rfl

/-- The estimated-value field of `score_domain`, unfolded. -/
theorem score_domain_value_eq (domain : String) (years_popular : List Int)
    (status : String) (whois_info : WhoisInfo) (now : ℚ) :
    (score_domain domain years_popular status whois_info now).estimated_value
      = _estimate_value
          (max 1 (min 10 (pyround (score_raw domain years_popular status whois_info now))))
          (ageStep whois_info.creation_date now).1
          ((pySplitDot domain).headD "").length status := rfl

/-- Banker's rounding never goes below the floor. -/
theorem floor_le_pyround (q : ℚ) : q.floor ≤ pyround q := by
  simp only [pyround]
  split
  · exact le_refl _
  · split
    · omega
    · split <;> omega

/-- The age adjustment is never negative. -/
theorem ageStep_delta_nonneg (c : Option DateStr) (now : ℚ) :
    0 ≤ (ageStep c now).2.1 := by
  rcases c with _ | d
  · simp [ageStep]
  · simp only [ageStep]
    split
    · rcases hd : fromisoformat d with _ | t
      · simp [hd]
      · simp only [hd]
        split_ifs <;> norm_num
    · norm_num

/-- The name-length adjustment is at least -1. -/
theorem lenStep_delta_ge (n : Nat) : (-1 : ℚ) ≤ (lenStep n).1 := by
  unfold lenStep
  repeat' split
  all_goals norm_num

/-- The TLD adjustment is never negative. -/
theorem tldStep_delta_nonneg (domain : String) : 0 ≤ (tldStep domain).1 := by
  unfold tldStep
  repeat' split
  all_goals norm_num

/-- The popularity adjustment is never negative. -/
theorem popStep_delta_nonneg (n : Nat) : 0 ≤ (popStep n).1 := by
  unfold popStep
  repeat' split
  all_goals norm_num

/-- The keyword adjustment is never negative. -/
theorem kwStep_delta_nonneg (s : String) : 0 ≤ (kwStep s).1 := by
  simp only [kwStep]
  split
  · norm_num
  · exact le_min (by positivity) (by norm_num)

/-- The brandability adjustment is at least -1/2. -/
theorem brandStep_delta_ge (s : String) : (-(1/2) : ℚ) ≤ (brandStep s).1 := by
  simp only [brandStep]
  split_ifs <;> norm_num

/-- The status adjustment is at least -1/2. -/
theorem statusStep_delta_ge (s : String) : (-(1/2) : ℚ) ≤ (statusStep s).1 := by
  unfold statusStep
  repeat' split
  all_goals norm_num

/-- The accumulated raw score is never below 3. -/
theorem score_raw_ge_three (domain : String) (years_popular : List Int)
    (status : String) (whois_info : WhoisInfo) (now : ℚ) :
    (3 : ℚ) ≤ score_raw domain years_popular status whois_info now := by
  simp only [score_raw]
  have h1 := ageStep_delta_nonneg whois_info.creation_date now
  have h2 := lenStep_delta_ge (((pySplitDot domain).headD "").length)
  have h3 := tldStep_delta_nonneg domain
  have h4 := popStep_delta_nonneg years_popular.length
  have h5 := kwStep_delta_nonneg (pyLower ((pySplitDot domain).headD ""))
  have h6 := brandStep_delta_ge (pyLower ((pySplitDot domain).headD ""))
  have h7 := statusStep_delta_ge status
  linarith

/-! ### Claim theorems -/

/-- C2 (amended): the status verdict is a deterministic function of the probe
result, the WHOIS record, the domain and the clock reading `now`: two calls
on identical values of all four agree.  (The original claim omits the clock
from the inputs; the counterexample shows it cannot be omitted.) -/
theorem determine_status_two_runs_eq (h₁ h₂ : HttpResult) (w₁ w₂ : WhoisInfo)
    (d₁ d₂ : String) (t₁ t₂ : ℚ)
    (hh : h₁ = h₂) (hw : w₁ = w₂) (hd : d₁ = d₂) (ht : t₁ = t₂) :
    determine_status h₁ w₁ d₁ t₁ = determine_status h₂ w₂ d₂ t₂ := by
  subst hh; subst hw; subst hd; subst ht; rfl

/-- Witness for C2 (amended) at a concrete input. -/
theorem determine_status_two_runs_eq_witness :
    determine_status {} {} "a.com" 0 = determine_status {} {} "a.com" 0 :=
  determine_status_two_runs_eq {} {} {} {} "a.com" "a.com" 0 0 rfl rfl rfl rfl

/-- C2 counterexample: two calls of `determine_status` on identical
(ProbeResult, WhoisRecord, domain, allow-list) inputs but different clock
readings return different verdicts, so the verdict is not a function of
those four inputs alone: with no HTTP status and an expiration date at day
10, the run at time 5 says `parked` and the run at time 20 says `expired`. -/
theorem determine_status_clock_counterexample :
    determine_status {} { expiration_date := some (.valid 10) } "foo.com" 5 = "parked"
    ∧ determine_status {} { expiration_date := some (.valid 10) } "foo.com" 20 = "expired"
    ∧ determine_status {} { expiration_date := some (.valid 10) } "foo.com" 5
        ≠ determine_status {} { expiration_date := some (.valid 10) } "foo.com" 20 := by
  refine ⟨?_, ?_, ?_⟩ <;> with_unfolding_all decide

/-- C4: for every input, the score returned by `score_domain` is an integer
in [1, 10]; the clamp `max(1, min(10, round(score)))` cannot be escaped in
either direction. -/
theorem score_domain_between_one_and_ten (domain : String) (years_popular : List Int)
    (status : String) (whois_info : WhoisInfo) (now : ℚ) :
    1 ≤ (score_domain domain years_popular status whois_info now).score
    ∧ (score_domain domain years_popular status whois_info now).score ≤ 10 := by
  rw [score_domain_score_eq]
  constructor
  · exact le_max_left 1 _
  · exact max_le (by norm_num) (min_le_left 10 _)

/-- C5: when the domain is not in the known-active allow-list and the probe
recorded a (truthy) redirect URL, `determine_status` returns `redirect`,
regardless of the parked / for-sale flags and of every WHOIS field. -/
theorem determine_status_redirect_of_redirect_url (h : HttpResult) (w : WhoisInfo)
    (d : String) (now : ℚ)
    (hallow : KNOWN_ACTIVE_DOMAINS.contains d = false)
    (hredir : pyTruthy h.redirect_url = true) :
    determine_status h w d now = "redirect" := by
  unfold determine_status
  rw [hallow]
  simp [hredir]

/-- Witness for C5: a redirect from example.net to www.example.org, with the
parked and for-sale flags both set and a non-trivial WHOIS record. -/
theorem determine_status_redirect_of_redirect_url_witness :
    determine_status
      { redirect_url := some "https://www.example.org/", is_parked := true
      , is_for_sale := true, http_status_code := some 200 }
      { registrar := some "R", expiration_date := some (.valid 0) }
      "example.net" 100 = "redirect" :=
  determine_status_redirect_of_redirect_url _ _ _ _ (by decide) (by decide)

/-- C7: the estimated value is looked up from the fixed score-keyed table
(so it depends on nothing but the score for non-`available` statuses, with
7 ↦ $10,000-$25,000, ..., 10 ↦ $100,000+ as in the code's `ranges` dict),
and an `available` status always overrides it with the flat registration
cost string, regardless of the score. -/
theorem estimate_value_table_and_available_override (s : Int) (a₁ a₂ : ℚ)
    (l₁ l₂ : Nat) (st st₁ st₂ : String) :
    _estimate_value s a₁ l₁ "available" = "$10-$15 (registration cost)"
    ∧ (st₁ ≠ "available" → st₂ ≠ "available" →
        _estimate_value s a₁ l₁ st₁ = _estimate_value s a₂ l₂ st₂)
    ∧ (st ≠ "available" →
        _estimate_value 1 a₁ l₁ st = "$0-$100"
        ∧ _estimate_value 2 a₁ l₁ st = "$100-$500"
        ∧ _estimate_value 3 a₁ l₁ st = "$500-$1,000"
        ∧ _estimate_value 4 a₁ l₁ st = "$1,000-$2,500"
        ∧ _estimate_value 5 a₁ l₁ st = "$2,500-$5,000"
        ∧ _estimate_value 6 a₁ l₁ st = "$5,000-$10,000"
        ∧ _estimate_value 7 a₁ l₁ st = "$10,000-$25,000"
        ∧ _estimate_value 8 a₁ l₁ st = "$25,000-$50,000"
        ∧ _estimate_value 9 a₁ l₁ st = "$50,000-$100,000"
        ∧ _estimate_value 10 a₁ l₁ st = "$100,000+") := by
  refine ⟨by simp [_estimate_value], ?_, ?_⟩
  · intro h1 h2
    simp [_estimate_value, h1, h2]
  · intro h1
    simp only [_estimate_value, if_neg h1]
    refine ⟨rfl, rfl, rfl, rfl, rfl, rfl, rfl, rfl, rfl, rfl⟩

/-- Witness for C7 at concrete statuses and scores. -/
theorem estimate_value_table_and_available_override_witness :
    _estimate_value 7 0 2 "available" = "$10-$15 (registration cost)"
    ∧ _estimate_value 7 0 2 "active" = "$10,000-$25,000"
    ∧ _estimate_value 10 0 2 "active" = "$100,000+" :=
  ⟨(estimate_value_table_and_available_override 7 0 0 2 2 "active" "active" "active").1,
   ((estimate_value_table_and_available_override 7 0 0 2 2 "active" "active" "active").2.2
      (by decide)).2.2.2.2.2.2.1,
   ((estimate_value_table_and_available_override 10 0 0 2 2 "active" "active" "active").2.2
      (by decide)).2.2.2.2.2.2.2.2.2⟩

/-- C8: the WHOIS normalizer is total over every outcome of the external
lookup (it never raises), and both a record-not-found condition and any
other lookup failure yield the all-absent record: every field `none` and
the nameserver list empty.  (`okEmpty` covers `whois.whois` returning
`None` or an empty dict, which also yields the all-absent record.) -/
theorem lookup_whois_failure_all_absent (msg : String) :
    lookup_whois (.notFound msg) = ({} : WhoisInfo)
    ∧ lookup_whois (.failure msg) = ({} : WhoisInfo)
    ∧ lookup_whois .okEmpty = ({} : WhoisInfo)
    ∧ ({} : WhoisInfo).registrar = none
    ∧ ({} : WhoisInfo).creation_date = none
    ∧ ({} : WhoisInfo).expiration_date = none
    ∧ ({} : WhoisInfo).name_servers = []
    ∧ ({} : WhoisInfo).registrant = none
    ∧ ({} : WhoisInfo).registrant_email = none :=
  ⟨rfl, rfl, rfl, rfl, rfl, rfl, rfl, rfl, rfl⟩

/-- C10: the score returned by `score_domain` is always at least 3: the
negative adjustments (-1 for a long name, -1/2 for low brandability, -1/2
for active status) can take the base 5.0 down to at most 3.0, so the lower
clamp bound 1 is never reached by `score_domain` itself. -/
theorem score_domain_at_least_three (domain : String) (years_popular : List Int)
    (status : String) (whois_info : WhoisInfo) (now : ℚ) :
    3 ≤ (score_domain domain years_popular status whois_info now).score := by
  rw [score_domain_score_eq]
  have hraw := score_raw_ge_three domain years_popular status whois_info now
  have hfloor : (3 : Int) ≤ (score_raw domain years_popular status whois_info now).floor := by
    rw [Rat.le_floor]
    exact_mod_cast hraw
  have hround : (3 : Int) ≤ pyround (score_raw domain years_popular status whois_info now) :=
    le_trans hfloor (floor_le_pyround _)
  have hmin : (3 : Int) ≤ min 10 (pyround (score_raw domain years_popular status whois_info now)) :=
    le_min (by norm_num) hround
  exact le_trans hmin (le_max_right 1 _)

/-- C1 counterexample: an input satisfying all the claim's hypotheses (domain
not allow-listed, no redirect, no for-sale/parked flag, HTTP status 500
present and outside [200,400)) on which `determine_status` returns
`expired`, not `active`: the past-expiration rule in the code fires even
when an HTTP status is present, because only the future-expiration branch
checks `not has_http`. -/
theorem determine_status_past_expiration_overrides_http_error :
    KNOWN_ACTIVE_DOMAINS.contains "foo.com" = false
    ∧ ({ http_status_code := some 500 } : HttpResult).redirect_url = none
    ∧ ({ http_status_code := some 500 } : HttpResult).is_for_sale = false
    ∧ ({ http_status_code := some 500 } : HttpResult).is_parked = false
    ∧ ¬(200 ≤ (500 : Int) ∧ (500 : Int) < 400)
    ∧ determine_status { http_status_code := some 500 }
        { expiration_date := some (.valid 0) } "foo.com" 1 = "expired"
    ∧ determine_status { http_status_code := some 500 }
        { expiration_date := some (.valid 0) } "foo.com" 1 ≠ "active" := by
  refine ⟨by decide, rfl, rfl, rfl, by decide, ?_, ?_⟩ <;> with_unfolding_all decide

/-- C1 (amended): with the domain not allow-listed, no redirect, both
content flags unset, and an HTTP status present but outside [200,400),
`determine_status` falls through to `active` PROVIDED the WHOIS expiration
date is absent, falsy, unparseable, or not in the past.  (The original
claim needs no such proviso; the counterexample shows the past-expiration
rule fires even with an HTTP status present, while rules 7-9 are indeed
restricted to the no-HTTP case.) -/
theorem determine_status_http_error_active (h : HttpResult) (w : WhoisInfo)
    (d : String) (now : ℚ)
    (hallow : KNOWN_ACTIVE_DOMAINS.contains d = false)
    (hredir : pyTruthy h.redirect_url = false)
    (hsale : h.is_for_sale = false)
    (hpark : h.is_parked = false)
    (c : Int) (hcode : h.http_status_code = some c)
    (hbad : ¬(200 ≤ c ∧ c < 400))
    (hexp : ∀ ds : DateStr, w.expiration_date = some ds → ds.truthy = true →
            ∀ t : Int, fromisoformat ds = some t → ¬((t : ℚ) < now)) :
    determine_status h w d now = "active" := by
  have hsir : statusInRange (some c) = false := by
    rcases not_and_or.mp hbad with h1 | h1 <;> simp [statusInRange, h1]
  unfold determine_status
  rw [hallow, hcode]
  rcases hE : w.expiration_date with _ | ds
  · simp [hredir, hsale, hpark, hsir, hE]
  · cases hT : ds.truthy
    · simp [hredir, hsale, hpark, hsir, hE, hT]
    · rcases hF : fromisoformat ds with _ | t
      · simp [hredir, hsale, hpark, hsir, hE, hT, hF]
      · have hlt := hexp ds hE hT t hF
        simp [hredir, hsale, hpark, hsir, hE, hT, hF, hlt]

/-- Witness for C1 (amended): HTTP 500 with an all-absent WHOIS record
yields `active`. -/
theorem determine_status_http_error_active_witness :
    determine_status { http_status_code := some 500 } {} "foo.com" 0 = "active" :=
  determine_status_http_error_active _ _ _ _ (by decide) rfl rfl rfl 500 rfl
    (by decide) (fun ds hds => by simp at hds)

/-- The placeholder block never touches the for-sale flag. -/
theorem placeholderStep_is_for_sale (n : Nat) (x : HttpResult) :
    (placeholderStep n x).is_for_sale = x.is_for_sale := by
  simp only [placeholderStep]
  split
  · split <;> rfl
  · rfl

/-- The placeholder block never unsets the parked flag. -/
theorem placeholderStep_is_parked_true (n : Nat) (x : HttpResult)
    (h : x.is_parked = true) : (placeholderStep n x).is_parked = true := by
  simp only [placeholderStep]
  split
  · split
    · rfl
    · exact h
  · exact h

/-- After the sync block, a set for-sale flag forces a set parked flag. -/
theorem forSaleSyncStep_spec (x : HttpResult) :
    (forSaleSyncStep x).is_for_sale = true → (forSaleSyncStep x).is_parked = true := by
  simp only [forSaleSyncStep]
  split
  · exact fun _ => rfl
  · exact fun hf => absurd hf (by assumption)

/-- C3: the content signal analyzer preserves the for-sale-implies-parked
invariant: starting from a probe result whose for-sale flag is unset (as in
the one call site, where a fresh result is analysed), if the analysis sets
the for-sale flag then it also sets the parked flag. -/
theorem analyse_for_sale_implies_parked (r : HttpResult) (body raw : String)
    (h : r.is_for_sale = false) :
    (_analyse_page_content r body raw).is_for_sale = true →
      (_analyse_page_content r body raw).is_parked = true := by
  simp only [_analyse_page_content]
  split
  · intro hf
    rw [h] at hf
    exact absurd hf (by decide)
  · intro hf
    rw [placeholderStep_is_for_sale] at hf
    exact placeholderStep_is_parked_true _ _ (forSaleSyncStep_spec _ hf)

/-- Witness for C3: a body with an explicit sale phrase sets both flags. -/
theorem analyse_for_sale_implies_parked_witness :
    (_analyse_page_content {} "this domain is for sale" "").is_parked = true :=
  analyse_for_sale_implies_parked {} "this domain is for sale" "" rfl (by decide)

/-- `strippedLen` of an `n`-fold repetition of a non-space character is `n`. -/
theorem strippedLen_replicate (n : Nat) (c : Char) (h : (c != ' ') = true) :
    strippedLen (String.mk (List.replicate n c)) = n := by
  unfold strippedLen
  induction n with
  | zero => rfl
  | succ k ih =>
    simp only [List.replicate_succ, List.filter_cons, h, if_pos, List.length_cons]
    simpa using ih

/-- The concrete large page body used in the C6 witness has more than 5000
non-space characters. -/
theorem strippedLen_witness_body :
    5000 < strippedLen (String.mk (List.replicate 5001 'a') ++ " buy this domain godaddy") := by
  have h1 : strippedLen (String.mk (List.replicate 5001 'a') ++ " buy this domain godaddy")
      = strippedLen (String.mk (List.replicate 5001 'a'))
        + strippedLen " buy this domain godaddy" := by
    unfold strippedLen
    rw [String.data_append, List.filter_append, List.length_append]
  rw [h1, strippedLen_replicate 5001 'a' rfl]
  decide

/-- C6: the "real site" early exit: when the body has more than 5000
non-space characters, the page title is present and non-empty, and the
lowercased title contains none of the four guard words, the analyzer
performs no further analysis, leaving the parked flag, the for-sale flag
and the sale platform at their initial unset values, whatever the body
contains. -/
theorem analyse_real_site_guard (r : HttpResult) (body raw : String) (t : String)
    (htitle : r.page_title = some t)
    (hlen : 5000 < strippedLen body)
    (hne : (pyLower t != "") = true)
    (hwords : realSiteTitleWords.any (fun w => pyIn w (pyLower t)) = false)
    (hp : r.is_parked = false) (hf : r.is_for_sale = false)
    (hs : r.sale_platform = none) :
    (_analyse_page_content r body raw).is_parked = false
    ∧ (_analyse_page_content r body raw).is_for_sale = false
    ∧ (_analyse_page_content r body raw).sale_platform = none := by
  have hearly : _analyse_page_content r body raw = r := by
    simp [_analyse_page_content, htitle, hlen, hne, hwords]
  refine ⟨?_, ?_, ?_⟩ <;> rw [hearly] <;> assumption

/-- Witness for C6: a 5000+ character page titled "Acme Corp Global
Logistics" whose body even contains a parking phrase and a marketplace
name is left unflagged. -/
theorem analyse_real_site_guard_witness :
    (_analyse_page_content { page_title := some "Acme Corp Global Logistics" }
        (String.mk (List.replicate 5001 'a') ++ " buy this domain godaddy") "").is_parked = false
    ∧ (_analyse_page_content { page_title := some "Acme Corp Global Logistics" }
        (String.mk (List.replicate 5001 'a') ++ " buy this domain godaddy") "").is_for_sale = false
    ∧ (_analyse_page_content { page_title := some "Acme Corp Global Logistics" }
        (String.mk (List.replicate 5001 'a') ++ " buy this domain godaddy") "").sale_platform = none :=
  analyse_real_site_guard _ _ "" "Acme Corp Global Logistics" rfl
    strippedLen_witness_body (by decide) (by decide) rfl rfl rfl

/-- C9 counterexample: at the scenario's concrete input (domain "ab.io",
creation 5479 days = about 15 years before `now`, six popular years,
status `active`), the pre-clamp total is 10.5, not 10.0: besides the five
adjustments the claim lists, the brandability bonus (+0.5) also fires for
"ab" (vowel ratio 1/2, no hyphens, no digits). -/
theorem score_ab_io_preclamp_not_ten :
    score_raw "ab.io" [2000, 2001, 2002, 2003, 2004, 2005] "active"
        { creation_date := some (.valid 0) } 5479 = 21/2
    ∧ (brandStep (pyLower "ab")).1 = 1/2
    ∧ score_raw "ab.io" [2000, 2001, 2002, 2003, 2004, 2005] "active"
        { creation_date := some (.valid 0) } 5479 ≠ 10 := by
  refine ⟨?_, ?_, ?_⟩ <;> with_unfolding_all decide

/-- C9 (amended): for domain "ab.io" with a parseable creation date about 15
years (in [15,16) Julian years) before `now`, six popular years and status
`active`, the adjustments are +1.5 (age), +2.0 (length), +0.5 (TLD), +1.5
(popularity), no keyword bonus, +0.5 (brandability) and -0.5 (active), for
a pre-clamp total of 10.5 (not 10.0 as claimed); rounding and clamping
still give the final score 10 and the estimated value $100,000+. -/
theorem score_ab_io_scenario (c : Int) (now : ℚ) (years : List Int)
    (hyears : years.length = 6)
    (h15 : 15 ≤ (((now - (c : ℚ)).floor : Int) : ℚ) / (1461/4))
    (h16 : (((now - (c : ℚ)).floor : Int) : ℚ) / (1461/4) < 16) :
    (ageStep (some (.valid c)) now).2.1 = 3/2
    ∧ (lenStep 2).1 = 2
    ∧ (tldStep "ab.io").1 = 1/2
    ∧ (popStep 6).1 = 3/2
    ∧ (kwStep (pyLower "ab")).1 = 0
    ∧ (brandStep (pyLower "ab")).1 = 1/2
    ∧ (statusStep "active").1 = -(1/2)
    ∧ score_raw "ab.io" years "active" { creation_date := some (.valid c) } now = 21/2
    ∧ (score_domain "ab.io" years "active" { creation_date := some (.valid c) } now).score = 10
    ∧ (score_domain "ab.io" years "active"
        { creation_date := some (.valid c) } now).estimated_value = "$100,000+" := by
  have h20 : ¬((20 : ℚ) ≤ (((now - (c : ℚ)).floor : Int) : ℚ) / (1461/4)) := by linarith
  have h10 : (10 : ℚ) ≤ (((now - (c : ℚ)).floor : Int) : ℚ) / (1461/4) := by linarith
  have hage : (ageStep (some (.valid c)) now).2.1 = 3/2 := by
    simp [ageStep, DateStr.truthy, fromisoformat, h20, h10]
  have hlen : (lenStep 2).1 = 2 := by with_unfolding_all decide
  have htld : (tldStep "ab.io").1 = 1/2 := by with_unfolding_all decide
  have hpop : (popStep 6).1 = 3/2 := by with_unfolding_all decide
  have hkw : (kwStep (pyLower "ab")).1 = 0 := by with_unfolding_all decide
  have hbrand : (brandStep (pyLower "ab")).1 = 1/2 := by with_unfolding_all decide
  have hstatus : (statusStep "active").1 = -(1/2) := by with_unfolding_all decide
  have hname : (pySplitDot "ab.io").headD "" = "ab" := by decide
  have hlenAb : (lenStep ("ab" : String).length).1 = 2 := by with_unfolding_all decide
  have hraw : score_raw "ab.io" years "active" { creation_date := some (.valid c) } now = 21/2 := by
    simp only [score_raw, hname, hyears]
    rw [hage]
    norm_num [hlenAb, htld, hpop, hkw, hbrand, hstatus]
  have hpr : pyround (21/2 : ℚ) = 10 := by with_unfolding_all decide
  have hclamp : max (1 : Int) (min 10 (pyround (score_raw "ab.io" years "active"
      { creation_date := some (.valid c) } now))) = 10 := by
    rw [hraw, hpr]
    omega
  have hscore : (score_domain "ab.io" years "active"
      { creation_date := some (.valid c) } now).score = 10 := by
    rw [score_domain_score_eq, hclamp]
  have hvalue : (score_domain "ab.io" years "active"
      { creation_date := some (.valid c) } now).estimated_value = "$100,000+" := by
    rw [score_domain_value_eq, hclamp]
    simp only [_estimate_value]
    rw [if_neg (by decide : ¬(("active" : String) = "available"))]
    decide
  exact ⟨hage, hlen, htld, hpop, hkw, hbrand, hstatus, hraw, hscore, hvalue⟩

/-- Witness for C9 (amended) at the concrete scenario input. -/
theorem score_ab_io_scenario_witness :
    (score_domain "ab.io" [2000, 2001, 2002, 2003, 2004, 2005] "active"
        { creation_date := some (.valid 0) } 5479).score = 10
    ∧ (score_domain "ab.io" [2000, 2001, 2002, 2003, 2004, 2005] "active"
        { creation_date := some (.valid 0) } 5479).estimated_value = "$100,000+" :=
  ⟨(score_ab_io_scenario 0 5479 [2000, 2001, 2002, 2003, 2004, 2005] rfl
      (by with_unfolding_all decide) (by with_unfolding_all decide)).2.2.2.2.2.2.2.2.1,
   (score_ab_io_scenario 0 5479 [2000, 2001, 2002, 2003, 2004, 2005] rfl
      (by with_unfolding_all decide) (by with_unfolding_all decide)).2.2.2.2.2.2.2.2.2⟩
